import Mathlib

/-!
Shallow embedding of the research-assistant repository's persistence layer
(database.py), paper source adapter (paper_manager.py) and intent-classifying
chat responder (chat_bot.py).

Conventions of the embedding:
* Python dicts with a known field set become structures whose fields are
  Option-valued; a field equal to none models an absent key.
* Python exceptions become an Except error value (for operations whose
  exceptions escape to a caller) or are inlined at the raise point (for
  operations that catch them); sqlite IntegrityError handling is modelled by
  the explicit constraint checks the sqlite schema performs.
* datetime.now() is threaded as an explicit "now" string parameter and
  random.choice as an explicit "randWord" parameter.
* json.dumps of a list or dict of strings is implemented concretely
  (jsonStrList / jsonStrDict); json.dumps followed by json.loads of the
  structured analysis sub-documents is a round trip, so analysis rows store
  the structured value that the TEXT column's JSON string denotes.
-/

/-- Python str.lower, mapping the lower-case conversion over the characters. -/
def strLower (s : String) : String := String.mk (s.data.map Char.toLower)

/-- Prefix test on character lists. -/
def isPrefixList : List Char → List Char → Bool
  | [], _ => true
  | _ :: _, [] => false
  | a :: as, b :: bs => a == b && isPrefixList as bs

/-- Occurrence test on character lists: some suffix starts with the pattern. -/
def containsList (pat : List Char) : List Char → Bool
  | [] => pat.isEmpty
  | c :: rest => isPrefixList pat (c :: rest) || containsList pat rest

/-- Python substring test (pat in s), as in the source's keyword checks. -/
def strContains (s pat : String) : Bool := containsList pat.data s.data

/-- Python s[:n], first n characters of a string. -/
def strTake (s : String) (n : Nat) : String := String.mk (s.data.take n)

/-- Escape one character for a JSON string literal (enough for the record
fields this repository produces). -/
def jsonEscapeChar (c : Char) : String :=
  if c = '"' then "\\\"" else if c = '\\' then "\\\\" else String.mk [c]

/-- Render a string as a JSON string literal. -/
def jsonQuote (s : String) : String :=
  "\"" ++ String.join (s.data.map jsonEscapeChar) ++ "\""

/-- Model of json.dumps on a list of strings, e.g. the authors list. -/
def jsonStrList (l : List String) : String :=
  "[" ++ String.intercalate ", " (l.map jsonQuote) ++ "]"

/-- Model of json.dumps on a dict with string values, e.g. the metadata map. -/
def jsonStrDict (l : List (String × String)) : String :=
  "\x7b" ++ String.intercalate ", " (l.map (fun kv => jsonQuote kv.1 ++ ": " ++ jsonQuote kv.2)) ++ "\x7d"

/-- Value stored under the authors key of a paper dict: a list of names as the
source adapters produce it, the JSON string Database.add_paper rewrites it to,
or Python None (which violates the NOT NULL column constraint on insert). -/
inductive AuthorsVal where
  | alist (l : List String)
  | astr (s : String)
  | anone
deriving DecidableEq

/-- Paper record dict as passed around paper_manager.py and database.py.
Option fields model presence of the corresponding dict key; extra holds the
remaining (string-valued) keys, in dict insertion order. -/
structure PaperRecord where
  paper_id : Option String := none
  title : Option String := none
  authors : Option AuthorsVal := none
  year : Option Int := none
  source : Option String := none
  abstract : Option String := none
  citation_count : Option Int := none
  url : Option String := none
  metadata : Option String := none
  date_added : Option String := none
  extra : List (String × String) := []
deriving DecidableEq

/-- Row of the users table. -/
structure UserRow where
  id : Nat
  username : String
  email : String
  password_hash : String
  join_date : String
  last_login : Option String := none
  preferences : Option String := none
deriving DecidableEq

/-- Row of the papers table (authors and metadata are stored as serialized
TEXT; year none models the empty-string default stored for a missing key). -/
structure PaperRow where
  id : Nat
  paper_id : String
  title : String
  authors : String
  year : Option Int
  source : String
  abstract : String
  citation_count : Int
  url : String
  metadata : String
  date_added : String
deriving DecidableEq

/-- Row of the user_papers association table. -/
structure SavedRow where
  id : Nat
  user_id : Nat
  paper_id : Nat
  date_saved : String
  notes : Option String := none
deriving DecidableEq

/-- Row of the research_history table. -/
structure HistoryRow where
  id : Nat
  user_id : Nat
  activity_type : String
  title : String
  description : String
  date : String
deriving DecidableEq

/-- One key finding of an analysis document. -/
structure Finding where
  title : String
  description : String
deriving DecidableEq

/-- One methodology step of an analysis document. -/
structure MStep where
  title : String
  description : String
deriving DecidableEq

/-- Methodology sub-document of an analysis. -/
structure Methodology where
  description : String
  steps : List MStep
deriving DecidableEq

/-- Implications sub-document of an analysis. -/
structure Implications where
  description : String
  research_gaps : List String
  future_directions : List String
deriving DecidableEq

/-- Analysis document dict: the synthesized document carries the four content
fields; the dict fetched back from the store additionally carries id, paper_id
and date_analyzed; the error sentinel carries only error. -/
structure AnalysisDoc where
  error : Option String := none
  summary : Option String := none
  key_findings : Option (List Finding) := none
  methodology : Option Methodology := none
  implications : Option Implications := none
  id : Option Nat := none
  paper_id : Option Nat := none
  date_analyzed : Option String := none
deriving DecidableEq

/-- Row of the paper_analysis table. Note the schema in Database._create_tables
declares paper_id merely NOT NULL with a foreign key, without a UNIQUE
constraint, so several rows may share one paper_id. The TEXT columns store
JSON whose parse is the structured value kept here. -/
structure AnalysisRow where
  id : Nat
  paper_id : Nat
  summary : String
  key_findings : List Finding
  methodology : Methodology
  implications : Implications
  date_analyzed : String
deriving DecidableEq

/-- The relational store of database.py: the five tables plus the sqlite
AUTOINCREMENT counters of the tables whose generated ids the code observes. -/
structure DB where
  users : List UserRow := []
  papers : List PaperRow := []
  user_papers : List SavedRow := []
  research_history : List HistoryRow := []
  paper_analysis : List AnalysisRow := []
  next_paper_id : Nat := 1
  next_user_paper_id : Nat := 1
  next_history_id : Nat := 1
  next_analysis_id : Nat := 1
deriving DecidableEq

/-- Exceptions that escape the database helpers to their callers. -/
inductive PyErr where
  | keyError
  | integrityError
deriving DecidableEq

/-- External paper key used by Database.add_paper: the given paper_id when the
key is present, else the deterministic source-and-title key; none models the
KeyError raised when source or title is missing during key computation. -/
def computeKey (rec : PaperRecord) : Option String :=
  match rec.paper_id with
  | some k => some k
  | none =>
    match rec.source, rec.title with
    | some s, some t => some (s ++ "_" ++ strTake t 50)
    | _, _ => none

/-- Authors rewrite performed by Database.add_paper: a list value is replaced
by its JSON serialization; any other value is left alone. -/
def serializeAuthors : Option AuthorsVal → Option AuthorsVal
  | some (.alist l) => some (.astr (jsonStrList l))
  | v => v

/-- Keys popped out of the record into the metadata map by Database.add_paper:
every key outside the fixed core schema, i.e. the extra keys plus any previous
metadata and date_added entries, in dict order. -/
def poppedEntries (rec : PaperRecord) : List (String × String) :=
  rec.extra
    ++ (match rec.metadata with | some m => [("metadata", m)] | none => [])
    ++ (match rec.date_added with | some d => [("date_added", d)] | none => [])

/-- In-place mutation Database.add_paper performs on the caller's dict before
the INSERT: key filled in, authors serialized, non-core keys folded into a
serialized metadata entry, date_added stamped. -/
def mutateRecord (rec : PaperRecord) (k : String) (now : String) : PaperRecord :=
  { rec with
    paper_id := some k
    authors := serializeAuthors rec.authors
    metadata := some (jsonStrDict (poppedEntries rec))
    date_added := some now
    extra := [] }

/-- TEXT stored in the authors column for a (non-None) authors value. -/
def authorsText : AuthorsVal → String
  | .alist l => jsonStrList l
  | .astr s => s
  | .anone => ""

/-- Row built by the INSERT of Database.add_paper from the mutated record. -/
def insertedRow (db : DB) (rec1 : PaperRecord) (k t : String) (a : AuthorsVal) (now : String) : PaperRow :=
  { id := db.next_paper_id
    paper_id := k
    title := t
    authors := authorsText a
    year := rec1.year
    source := rec1.source.getD ""
    abstract := rec1.abstract.getD ""
    citation_count := rec1.citation_count.getD 0
    url := rec1.url.getD ""
    metadata := rec1.metadata.getD ""
    date_added := now }

/-- Database.add_paper. Mutates the record, then INSERTs; an IntegrityError
(duplicate external key, or NOT NULL violation for a None authors value) is
caught and answered by looking up the existing row's id, returning none when
no row carries the key. A missing title or authors key raises KeyError to the
caller, as does a missing source or title during key computation. -/
def add_paper (db : DB) (rec : PaperRecord) (now : String) :
    Except PyErr (DB × PaperRecord × Option Nat) :=
  match computeKey rec with
  | none => .error .keyError
  | some k =>
    let rec1 := mutateRecord rec k now
    match rec1.title, rec1.authors with
    | some t, some a =>
      match db.papers.find? (fun r => r.paper_id == k) with
      | some r => .ok (db, rec1, some r.id)
      | none =>
        match a with
        | .anone => .ok (db, rec1, none)
        | _ =>
          .ok ({ db with
                  papers := db.papers ++ [insertedRow db rec1 k t a now]
                  next_paper_id := db.next_paper_id + 1 },
               rec1, some db.next_paper_id)
    | _, _ => .error .keyError

/-- Membership test for a user id, as the users foreign key enforces it. -/
def userExists (db : DB) (uid : Nat) : Bool := db.users.any (fun u => u.id == uid)

/-- Database.save_paper_for_user: upsert the paper, fail (False) when the
upsert yields no id, then INSERT the association; an IntegrityError there
(duplicate association or nonexistent user) is caught and reported as True. -/
def save_paper_for_user (db : DB) (uid : Nat) (rec : PaperRecord) (now : String) :
    Except PyErr (DB × PaperRecord × Bool) :=
  match add_paper db rec now with
  | .error e => .error e
  | .ok (db1, rec1, none) => .ok (db1, rec1, false)
  | .ok (db1, rec1, some pid) =>
    if userExists db1 uid && !(db1.user_papers.any (fun r => r.user_id == uid && r.paper_id == pid)) then
      .ok ({ db1 with
              user_papers := db1.user_papers ++
                [{ id := db1.next_user_paper_id, user_id := uid, paper_id := pid, date_saved := now }]
              next_user_paper_id := db1.next_user_paper_id + 1 },
           rec1, true)
    else
      .ok (db1, rec1, true)

/-- Database.add_history_item: INSERT a history row; the foreign-key failure
for a nonexistent user raises (it is not caught inside database.py). -/
def add_history_item (db : DB) (uid : Nat) (activity_type title description now : String) :
    Except PyErr (DB × Bool) :=
  if userExists db uid then
    .ok ({ db with
            research_history := db.research_history ++
              [{ id := db.next_history_id, user_id := uid, activity_type := activity_type,
                 title := title, description := description, date := now }]
            next_history_id := db.next_history_id + 1 },
         true)
  else
    .error .integrityError

/-- Serialization Database.save_paper_analysis applies to a document before
storing it; an absent content field falls back to the coded default. -/
def analysisRowOf (db : DB) (pid : Nat) (doc : AnalysisDoc) (now : String) : AnalysisRow :=
  { id := db.next_analysis_id
    paper_id := pid
    summary := doc.summary.getD ""
    key_findings := doc.key_findings.getD []
    methodology := doc.methodology.getD { description := "", steps := [] }
    implications := doc.implications.getD { description := "", research_gaps := [], future_directions := [] }
    date_analyzed := now }

/-- Database.save_paper_analysis: INSERT a fresh row. Because the schema has
no UNIQUE constraint on paper_analysis.paper_id, the INSERT only fails when
the paper foreign key is violated; only then does the UPDATE fallback run,
reporting whether it touched any row. -/
def save_paper_analysis (db : DB) (pid : Nat) (doc : AnalysisDoc) (now : String) : DB × Bool :=
  if db.papers.any (fun r => r.id == pid) then
    ({ db with
        paper_analysis := db.paper_analysis ++ [analysisRowOf db pid doc now]
        next_analysis_id := db.next_analysis_id + 1 },
     true)
  else
    let updated := db.paper_analysis.map (fun r =>
      if r.paper_id == pid then
        { r with
          summary := (analysisRowOf db pid doc now).summary
          key_findings := (analysisRowOf db pid doc now).key_findings
          methodology := (analysisRowOf db pid doc now).methodology
          implications := (analysisRowOf db pid doc now).implications
          date_analyzed := now }
      else r)
    ({ db with paper_analysis := updated },
     db.paper_analysis.any (fun r => r.paper_id == pid))

/-- Dict built back from a stored analysis row by Database.get_paper_analysis:
all seven columns, with the three JSON columns parsed to structured values. -/
def rowToDoc (r : AnalysisRow) : AnalysisDoc :=
  { error := none
    summary := some r.summary
    key_findings := some r.key_findings
    methodology := some r.methodology
    implications := some r.implications
    id := some r.id
    paper_id := some r.paper_id
    date_analyzed := some r.date_analyzed }

/-- Database.get_paper_analysis: first stored row for the paper id, if any. -/
def get_paper_analysis (db : DB) (pid : Nat) : Option AnalysisDoc :=
  (db.paper_analysis.find? (fun r => r.paper_id == pid)).map rowToDoc

/-- Sample records returned by ResearchPaperManager._fetch_from_semantic_scholar. -/
def semanticScholarSample : List PaperRecord :=
  [ { extra := [("id", "sem1")]
      title := some "Attention Is All You Need"
      authors := some (.alist ["Ashish Vaswani", "Noam Shazeer", "Niki Parmar"])
      year := some 2017
      abstract := some "The dominant sequence transduction models are based on complex recurrent or convolutional neural networks that include an encoder and a decoder. The best performing models also connect the encoder and decoder through an attention mechanism. We propose a new simple network architecture, the Transformer, based solely on attention mechanisms, dispensing with recurrence and convolutions entirely."
      citation_count := some 45000
      source := some "Semantic Scholar"
      url := some "https://api.semanticscholar.org/v1/paper/sem1" },
    { extra := [("id", "sem2")]
      title := some "BERT: Pre-training of Deep Bidirectional Transformers for Language Understanding"
      authors := some (.alist ["Jacob Devlin", "Ming-Wei Chang", "Kenton Lee", "Kristina Toutanova"])
      year := some 2018
      abstract := some "We introduce a new language representation model called BERT, which stands for Bidirectional Encoder Representations from Transformers. Unlike recent language representation models, BERT is designed to pre-train deep bidirectional representations from unlabeled text by jointly conditioning on both left and right context in all layers."
      citation_count := some 35000
      source := some "Semantic Scholar"
      url := some "https://api.semanticscholar.org/v1/paper/sem2" } ]

/-- Sample records returned by ResearchPaperManager._fetch_from_arxiv. -/
def arxivSample : List PaperRecord :=
  [ { extra := [("id", "arxiv1")]
      title := some "GPT-4 Technical Report"
      authors := some (.alist ["OpenAI Team"])
      year := some 2023
      abstract := some "We report the development of GPT-4, a large-scale, multimodal model which can accept image and text inputs and produce text outputs. While less capable than humans in many real-world scenarios, GPT-4 exhibits human-level performance on various professional and academic benchmarks."
      citation_count := some 500
      source := some "arXiv"
      url := some "https://arxiv.org/abs/arxiv1" },
    { extra := [("id", "arxiv2")]
      title := some "Language Models are Few-Shot Learners"
      authors := some (.alist ["Tom B. Brown", "Benjamin Mann", "Nick Ryder"])
      year := some 2020
      abstract := some "Recent work has demonstrated substantial gains on many NLP tasks and benchmarks by pre-training on a large corpus of text followed by fine-tuning on a specific task. We demonstrate that by scaling up language models, they become increasingly capable of performing tasks that they were not explicitly trained on."
      citation_count := some 12000
      source := some "arXiv"
      url := some "https://arxiv.org/abs/arxiv2" } ]

/-- Sample records returned by ResearchPaperManager._fetch_from_pubmed. -/
def pubmedSample : List PaperRecord :=
  [ { extra := [("id", "pubmed1")]
      title := some "The role of AI in genomics and precision medicine"
      authors := some (.alist ["Sarah Johnson", "Michael Chen"])
      year := some 2022
      abstract := some "Artificial intelligence is transforming genomics and precision medicine by enabling more accurate analysis of complex genomic data. This review examines recent advances in AI-based genomic analysis and their implications for personalized healthcare."
      citation_count := some 150
      source := some "PubMed"
      url := some "https://pubmed.ncbi.nlm.nih.gov/pubmed1" },
    { extra := [("id", "pubmed2")]
      title := some "Neural basis of language comprehension"
      authors := some (.alist ["David Miller", "Jennifer Smith"])
      year := some 2021
      abstract := some "This fMRI study investigates the neural mechanisms underlying language comprehension in different contexts. Results indicate a distributed network of brain regions involved in semantic processing, with significant implications for understanding language disorders."
      citation_count := some 85
      source := some "PubMed"
      url := some "https://pubmed.ncbi.nlm.nih.gov/pubmed2" } ]

/-- Session-scoped state of the paper source adapter: the shared store, the
in-memory search cache (insertion-ordered dict keyed by the search signature)
and an observability counter of how many single-source fetches have run,
mirroring the spec's source-call counter. -/
structure Session where
  db : DB := {}
  paper_search_cache : List (String × List PaperRecord) := []
  source_calls : Nat := 0
deriving DecidableEq

/-- Search signature of fetch_research_papers: query, normalized source,
year range and sort mode, joined with underscores. -/
def searchKey (query : String) (source : Option String) (year_range : Int × Int) (sort_by : String) : String :=
  let source_key := match source with
    | none => "all"
    | some s => (strLower s).replace " " "_"
  query ++ "_" ++ source_key ++ "_" ++ toString year_range.1 ++ "_" ++ toString year_range.2 ++ "_" ++ sort_by

/-- Source list selection of fetch_research_papers (an unknown named source,
like Google Scholar, selects no adapter at all). -/
def sourcesToQuery (source : Option String) : List String :=
  match source with
  | none => ["semantic_scholar", "arxiv", "pubmed"]
  | some s =>
    if strLower s == "semantic scholar" then ["semantic_scholar"]
    else if strLower s == "arxiv" then ["arxiv"]
    else if strLower s == "pubmed" then ["pubmed"]
    else []

/-- Concatenated sample results for the selected sources, in the fixed
semantic-scholar, arxiv, pubmed order the source queries them. -/
def mergedSamples (srcs : List String) : List PaperRecord :=
  (if srcs.contains "semantic_scholar" then semanticScholarSample else [])
    ++ (if srcs.contains "arxiv" then arxivSample else [])
    ++ (if srcs.contains "pubmed" then pubmedSample else [])

/-- Store every fetched record via add_paper, collecting the records as the
loop leaves them (add_paper mutates each dict in place). -/
def addAll (db : DB) (ps : List PaperRecord) (now : String) :
    Except PyErr (DB × List PaperRecord) :=
  match ps with
  | [] => .ok (db, [])
  | p :: rest =>
    match add_paper db p now with
    | .error e => .error e
    | .ok (db1, p1, _) =>
      match addAll db1 rest now with
      | .error e => .error e
      | .ok (db2, rest1) => .ok (db2, p1 :: rest1)

/-- Stable insertion into a descending-by-key list: an element goes before the
first strictly-smaller key, after equal keys already placed (which originate
earlier in the input), matching Python's stable sort with reverse=True. -/
def insertDescBy (key : PaperRecord → Int) (x : PaperRecord) : List PaperRecord → List PaperRecord
  | [] => [x]
  | y :: ys => if key x ≥ key y then x :: y :: ys else y :: insertDescBy key x ys

/-- Stable descending sort by an integer key. -/
def sortDescBy (key : PaperRecord → Int) (l : List PaperRecord) : List PaperRecord :=
  l.foldr (insertDescBy key) []

/-- Mock sort applied by fetch_research_papers after caching. -/
def applySort (sort_by : String) (l : List PaperRecord) : List PaperRecord :=
  if sort_by == "date" then sortDescBy (fun p => p.year.getD 0) l
  else if sort_by == "citation_count" then sortDescBy (fun p => p.citation_count.getD 0) l
  else l

/-- ResearchPaperManager.fetch_research_papers. A hit on the search signature
returns the cached list verbatim. A miss queries the selected sample sources,
upserts every record (mutating it), caches the merged list, sorts it in place
(so the cache entry holds the sorted list) and returns its first max_results
elements. -/
def fetch_research_papers (st : Session) (query : String) (source : Option String)
    (year_range : Int × Int) (sort_by : String) (max_results : Nat) (now : String) :
    Except PyErr (List PaperRecord × Session) :=
  let key := searchKey query source year_range sort_by
  match st.paper_search_cache.lookup key with
  | some cached => .ok (cached, st)
  | none =>
    let srcs := sourcesToQuery source
    match addAll st.db (mergedSamples srcs) now with
    | .error e => .error e
    | .ok (db1, stored) =>
      let sorted := applySort sort_by stored
      .ok (sorted.take max_results,
           { db := db1
             paper_search_cache := st.paper_search_cache ++ [(key, sorted)]
             source_calls := st.source_calls + srcs.length })

/-- Error sentinel analysis returned when the upsert yields no paper id. -/
def errorSentinelDoc : AnalysisDoc := { error := some "Failed to process paper for analysis" }

/-- Fixed degraded document returned by analyze_paper's except handler. -/
def degradedDoc : AnalysisDoc :=
  { summary := some "Unable to analyze paper due to an error."
    key_findings := some []
    methodology := some { description := "Not available", steps := [] }
    implications := some { description := "Not available", research_gaps := [], future_directions := [] } }

/-- Python ', '.join(x[:3]) over the (post-mutation) authors value: a list
joins its first three entries; a string joins its first three characters; a
missing key defaults to the empty list. A None value would raise (the caller
treats that case separately). -/
def joinAuthors3 : Option AuthorsVal → String
  | some (.alist l) => String.intercalate ", " (l.take 3)
  | some (.astr s) => String.intercalate ", " ((s.data.take 3).map Char.toString)
  | some .anone => ""
  | none => ""

/-- Rendering of the year in the summary f-string: paper.get('year', ''). -/
def yearText : Option Int → String
  | some y => toString y
  | none => ""

/-- Fixed key findings synthesized for every analysis. -/
def synthFindings : List Finding :=
  [ { title := "Novel methodology developed"
      description := "The authors developed a new approach that improves upon existing methods by incorporating advanced techniques and algorithms." },
    { title := "Significant performance improvements"
      description := "Experimental results demonstrate substantial improvements over baseline methods, with up to 30% better performance on standard benchmarks." },
    { title := "Important theoretical contributions"
      description := "The paper makes notable theoretical contributions by extending existing frameworks and proposing new mathematical formulations." } ]

/-- Fixed methodology synthesized for every analysis. -/
def synthMethodology : Methodology :=
  { description := "The research employs a multi-stage approach combining quantitative and qualitative methods to address the research questions."
    steps :=
      [ { title := "Data collection and preprocessing"
          description := "Comprehensive dataset compilation from multiple sources, followed by rigorous cleaning and normalization." },
        { title := "Model development and implementation"
          description := "Design and implementation of novel computational models tailored to the specific research problem." },
        { title := "Experimental evaluation"
          description := "Extensive evaluation using both established benchmarks and custom test scenarios to validate the approach." } ] }

/-- Fixed implications synthesized for every analysis. -/
def synthImplications : Implications :=
  { description := "This research has significant implications for both theory and practice in the field."
    research_gaps :=
      [ "Limited evaluation in real-world settings",
        "Computational efficiency challenges for large-scale applications",
        "Need for more diverse datasets to ensure generalizability" ]
    future_directions :=
      [ "Extending the approach to related problem domains",
        "Incorporating additional data sources to enhance performance",
        "Developing more efficient implementations for resource-constrained environments" ] }

/-- Deterministic template document analyze_paper synthesizes from the
(already mutated) paper dict. -/
def synthDoc (p : PaperRecord) : AnalysisDoc :=
  { summary := some ("This paper by " ++ joinAuthors3 p.authors ++ " (" ++ yearText p.year ++ ") explores "
      ++ strLower (p.title.getD "")
      ++ ". The research presents innovative approaches to understand and address challenges in this domain. The work contributes significantly to the field by providing new methodologies and insights.")
    key_findings := some synthFindings
    methodology := some synthMethodology
    implications := some synthImplications }

/-- ResearchPaperManager.analyze_paper. The whole body sits in a try/except
returning the fixed degraded document, so the function is total: an upsert
KeyError gives the degraded document, an upsert returning no id gives the
error sentinel, an existing analysis is returned as fetched, and otherwise a
document is synthesized, saved and returned. A None authors value in the
synthesis step models the TypeError of slicing None, also caught. -/
def analyze_paper (db : DB) (paper : PaperRecord) (now : String) :
    DB × PaperRecord × AnalysisDoc :=
  match add_paper db paper now with
  | .error _ => (db, paper, degradedDoc)
  | .ok (db1, p1, none) => (db1, p1, errorSentinelDoc)
  | .ok (db1, p1, some pid) =>
    match get_paper_analysis db1 pid with
    | some existing => (db1, p1, existing)
    | none =>
      match p1.authors with
      | some .anone => (db1, p1, degradedDoc)
      | _ =>
        let doc := synthDoc p1
        ((save_paper_analysis db1 pid doc now).1, p1, doc)

/-- Transcript record appended to st.session_state.chat_history. -/
structure ChatMsg where
  role : String
  content : String
  timestamp : String
deriving DecidableEq

/-- One element of the chat bot's research_context list: callers pass the
selected paper dict followed by its analysis dict. -/
inductive CtxEntry where
  | paperE (p : PaperRecord)
  | analysisE (a : AnalysisDoc)
deriving DecidableEq

/-- Python entry.get('title', d) on a context element (analysis dicts carry
no title key). -/
def ctxTitle (e : CtxEntry) (d : String) : String :=
  match e with
  | .paperE p => p.title.getD d
  | .analysisE _ => d

/-- Python ', '.join(entry.get('authors', ['the authors'])) in the summary
branch: joins the names of a list value, the characters of a string value
(the shape add_paper leaves behind), raises TypeError on a None value and
falls back to the default for a missing key or an analysis dict. -/
def ctxAuthorsJoinFull (e : CtxEntry) : Except Unit String :=
  match e with
  | .paperE p =>
    match p.authors with
    | some (.alist l) => .ok (String.intercalate ", " l)
    | some (.astr s) => .ok (String.intercalate ", " (s.data.map Char.toString))
    | some .anone => .error ()
    | none => .ok "the authors"
  | .analysisE _ => .ok "the authors"

/-- Test for 'key_findings' in research_context[1] (paper dicts never carry
that key). -/
def entryKeyFindings : CtxEntry → Option (List Finding)
  | .analysisE a => a.key_findings
  | .paperE _ => none

/-- Test for 'methodology' in research_context[1]. -/
def entryMethodology : CtxEntry → Option Methodology
  | .analysisE a => a.methodology
  | .paperE _ => none

/-- Test for 'implications' in research_context[1]. -/
def entryImplications : CtxEntry → Option Implications
  | .analysisE a => a.implications
  | .paperE _ => none

/-- Summary-branch keyword test on the lower-cased query. -/
def isSummaryQ (ql : String) : Bool :=
  strContains ql "summary" || strContains ql "summarize"

/-- Findings-branch keyword test on the lower-cased query. -/
def isFindingsQ (ql : String) : Bool :=
  strContains ql "findings" || strContains ql "results" || strContains ql "discover"

/-- Methodology-branch keyword test on the lower-cased query. -/
def isMethodQ (ql : String) : Bool :=
  strContains ql "method" || strContains ql "approach" || strContains ql "how did they"

/-- Implications-branch keyword test on the lower-cased query. -/
def isImplicationsQ (ql : String) : Bool :=
  strContains ql "implications" || strContains ql "impact" || strContains ql "future" || strContains ql "next steps"

/-- Compare-branch keyword test on the lower-cased query. -/
def isCompareQ (ql : String) : Bool :=
  strContains ql "compare" || strContains ql "difference" || strContains ql "similar"

/-- Fixed apology returned by generate_response's except handler. -/
def apologyResp : String :=
  "I apologize, but I encountered an error while processing your question. Please try asking in a different way or search for specific papers to provide more context."

/-- Summary response with a paper in context. -/
def summaryResp (title joined titleForTopic : String) : String :=
  "Here's a summary of the paper '" ++ title ++ "':\n\n"
    ++ "This research by " ++ joined ++ " "
    ++ "investigates " ++ strLower titleForTopic ++ ". "
    ++ "\n\nThe paper makes several key contributions:\n"
    ++ "1. Development of novel methodologies for addressing challenges in this domain\n"
    ++ "2. Empirical evidence supporting the effectiveness of the proposed approach\n"
    ++ "3. Theoretical foundations that advance our understanding of the underlying principles\n\n"
    ++ "The research is particularly notable for its rigorous methodology and comprehensive analysis."

/-- Summary response without a paper in context. -/
def noPaperSummaryResp : String :=
  "I don't currently have a specific paper in context to summarize. Please search for and select a paper first, or ask a more general research question."

/-- Numbered rendering of key findings, starting at index i. -/
def enumFindings (i : Nat) : List Finding → String
  | [] => ""
  | f :: rest => toString (i + 1) ++ ". **" ++ f.title ++ "**: " ++ f.description ++ "\n\n" ++ enumFindings (i + 1) rest

/-- Findings response when the analysis has structured key findings. -/
def findingsResp (title : String) (fs : List Finding) : String :=
  "The key findings of '" ++ title ++ "' include:\n\n" ++ enumFindings 0 fs

/-- Generic findings statement used when no structured key findings exist. -/
def genericFindingsResp (title : String) : String :=
  "The paper '" ++ title ++ "' presents several important findings, including methodological innovations, empirical results supporting their hypotheses, and theoretical contributions to the field."

/-- Findings response without a paper in context. -/
def noPaperFindingsResp : String :=
  "I don't have a specific paper in context to discuss findings. Please select a paper first, or ask a more general research question."

/-- Numbered rendering of methodology steps, starting at index i. -/
def enumSteps (i : Nat) : List MStep → String
  | [] => ""
  | s :: rest => toString (i + 1) ++ ". **" ++ s.title ++ "**: " ++ s.description ++ "\n\n" ++ enumSteps (i + 1) rest

/-- Methodology response when the analysis has a structured methodology. -/
def methodResp (title : String) (m : Methodology) : String :=
  "The methodology in '" ++ title ++ "' is as follows:\n\n" ++ m.description ++ "\n\n"
    ++ (if m.steps.isEmpty then "" else "The research process involved these key steps:\n\n" ++ enumSteps 0 m.steps)

/-- Generic methodology statement. -/
def genericMethodResp : String :=
  "The researchers employed a multi-faceted methodology combining quantitative analysis with qualitative assessments. Their approach involved data collection from multiple sources, rigorous preprocessing, model development, and comprehensive evaluation against established benchmarks."

/-- Methodology response without a paper in context. -/
def noPaperMethodResp : String :=
  "I don't have a specific paper in context to discuss methodology. If you're asking about research methods in general, please specify which area or approach you're interested in."

/-- Bulleted list rendering used for gaps and future directions. -/
def bulletList : List String → String
  | [] => ""
  | s :: rest => "- " ++ s ++ "\n" ++ bulletList rest

/-- Implications response when the analysis has structured implications. -/
def implicationsResp (title : String) (im : Implications) : String :=
  "**Implications of '" ++ title ++ "':**\n\n" ++ im.description ++ "\n\n"
    ++ "**Research Gaps Identified:**\n" ++ bulletList im.research_gaps
    ++ "\n**Future Research Directions:**\n" ++ bulletList im.future_directions

/-- Generic implications statement. -/
def genericImplicationsResp (titleForSubject : String) : String :=
  "The research has several important implications for both theory and practice. It extends our understanding of "
    ++ strLower titleForSubject
    ++ " and provides practical approaches that can be applied in real-world scenarios. Future work could explore additional domains, incorporate more diverse datasets, and develop more efficient computational methods."

/-- Implications response without a paper in context. -/
def noPaperImplicationsResp : String :=
  "To discuss research implications, it would be helpful to have a specific paper in context. Please select a paper first, or specify which research area you're interested in."

/-- Fixed multi-paper comparison message. -/
def compareResp : String :=
  "To compare multiple papers, please select at least two papers from your search results. Currently, our system allows detailed analysis of one paper at a time, but we're working on adding multi-paper comparison features in the future."

/-- Default response with a paper in context (randWord stands for the
random.choice over innovative, comprehensive and novel). -/
def ctxDefaultResp (q title randWord titleForTopic : String) : String :=
  "Regarding your question about " ++ q ++ ", in the context of '" ++ title ++ "':\n\n"
    ++ "The paper addresses aspects related to your question through its " ++ randWord ++ " "
    ++ "approach to " ++ strLower titleForTopic ++ ". The authors provide insights that "
    ++ "contribute to our understanding of this area, specifically through their analysis of relevant factors "
    ++ "and the implications of their findings for both theory and practice.\n\n"
    ++ "For more specific information, you might consider asking about the paper's methodology, key findings, "
    ++ "or broader implications."

/-- Default response without a paper in context. -/
def noCtxDefaultResp (q : String) : String :=
  "To provide a more informed response about " ++ q ++ ", it would be helpful to have a specific "
    ++ "research paper in context. You can search for relevant papers using the Search function, or I can "
    ++ "try to answer your question based on general knowledge in this field.\n\n"
    ++ "Would you like to search for papers related to this topic, or would you prefer a general overview?"

/-- History-row description built inside generate_response: the contextual
paper's title when a non-empty one exists, else the word research (Python
truthiness of paper_context). -/
def chatHistoryDescription (ctx : List CtxEntry) : String :=
  "Question about " ++
    (match ctx with
     | [] => "research"
     | e :: _ => let t := ctxTitle e "Unknown paper"; if t == "" then "research" else t)

/-- Store side effect of generate_response: a history row is added when a
non-zero caller identity is supplied (Python: if user_id:); the foreign-key
failure for an unknown user raises into the surrounding try. -/
def chatHistoryStep (db : DB) (ctx : List CtxEntry) (q : String) (uid : Option Nat) (now : String) :
    Except PyErr DB :=
  match uid with
  | none => .ok db
  | some u =>
    if u == 0 then .ok db
    else
      match add_history_item db u "chat" ("Chat: " ++ strTake q 50 ++ "...") (chatHistoryDescription ctx) now with
      | .error e => .error e
      | .ok (db1, _) => .ok db1

/-- ResearchChatBot.generate_response. The user turn is appended to the
transcript before the branch dispatch; only the summary branch appends the
assistant turn before returning; every other branch returns its response
directly, and the except handler (inlined at each raise point: the
foreign-key failure of the history insert, the TypeError of joining a None
authors value, and the IndexError of research_context[1] on a one-element
context) returns the apology without appending it. -/
def generate_response (ctx : List CtxEntry) (hist : List ChatMsg) (db : DB)
    (q : String) (uid : Option Nat) (now randWord : String) :
    String × List ChatMsg × DB :=
  let ql := strLower q
  let hist1 := hist ++ [{ role := "user", content := q, timestamp := now }]
  match chatHistoryStep db ctx q uid now with
  | .error _ => (apologyResp, hist1, db)
  | .ok db1 =>
    if isSummaryQ ql then
      match ctx with
      | [] =>
        (noPaperSummaryResp,
         hist1 ++ [{ role := "assistant", content := noPaperSummaryResp, timestamp := now }], db1)
      | e :: _ =>
        match ctxAuthorsJoinFull e with
        | .error _ => (apologyResp, hist1, db1)
        | .ok joined =>
          let r := summaryResp (ctxTitle e "the selected paper") joined (ctxTitle e "the topic")
          (r, hist1 ++ [{ role := "assistant", content := r, timestamp := now }], db1)
    else if isFindingsQ ql then
      match ctx with
      | [] => (noPaperFindingsResp, hist1, db1)
      | [_] => (apologyResp, hist1, db1)
      | e0 :: e1 :: _ =>
        match entryKeyFindings e1 with
        | some fs => (findingsResp (ctxTitle e0 "the paper") fs, hist1, db1)
        | none => (genericFindingsResp (ctxTitle e0 "selected"), hist1, db1)
    else if isMethodQ ql then
      match ctx with
      | [] => (noPaperMethodResp, hist1, db1)
      | [_] => (apologyResp, hist1, db1)
      | e0 :: e1 :: _ =>
        match entryMethodology e1 with
        | some m => (methodResp (ctxTitle e0 "the paper") m, hist1, db1)
        | none => (genericMethodResp, hist1, db1)
    else if isImplicationsQ ql then
      match ctx with
      | [] => (noPaperImplicationsResp, hist1, db1)
      | [_] => (apologyResp, hist1, db1)
      | e0 :: e1 :: _ =>
        match entryImplications e1 with
        | some im => (implicationsResp (ctxTitle e0 "the paper") im, hist1, db1)
        | none => (genericImplicationsResp (ctxTitle e0 "the subject"), hist1, db1)
    else if isCompareQ ql then
      (compareResp, hist1, db1)
    else
      match ctx with
      | [] => (noCtxDefaultResp q, hist1, db1)
      | e :: _ =>
        (ctxDefaultResp q (ctxTitle e "the selected paper") randWord (ctxTitle e "the research topic"),
         hist1, db1)

/-! Concrete stores, records and runs used by the closed statements below. -/

/-- Empty session (fresh Streamlit session state). -/
def session0 : Session := {}

/-- Empty store. -/
def db0 : DB := {}

/-- First sample record of the semantic-scholar adapter. -/
def paperSem1 : PaperRecord := semanticScholarSample.headD {}

/-- One stored paper row with database id 1 and external key k. -/
def rowK : PaperRow :=
  { id := 1, paper_id := "k", title := "T", authors := "[]",
    year := none, source := "", abstract := "", citation_count := 0,
    url := "", metadata := "", date_added := "" }

/-- Store holding exactly the paper row rowK. -/
def dbK : DB := { papers := [rowK], next_paper_id := 2 }

/-- Record whose external key collides with rowK. -/
def recK : PaperRecord := { paper_id := some "k", title := some "X", authors := some (.astr "[]") }

/-- Record carrying a Python-None authors value and the colliding key k. -/
def recAnone : PaperRecord := { paper_id := some "k", title := some "X", authors := some .anone }

/-- One registered user with id 7. -/
def userRow7 : UserRow :=
  { id := 7, username := "u", email := "e", password_hash := "h", join_date := "j" }

/-- Store holding only the user userRow7. -/
def dbU : DB := { users := [userRow7] }

/-- First call of the two-call search scenario of the spec's test list:
query ml, all sources, maxResults one, on a fresh session. -/
def c2first : Except PyErr (List PaperRecord × Session) :=
  fetch_research_papers session0 "ml" none (1900, 2023) "relevance" 1 "T"

/-- Repeated identical search call, run on the session the first call left. -/
def c2second : Except PyErr (List PaperRecord × Session) :=
  match c2first with
  | .ok (_, st1) => fetch_research_papers st1 "ml" none (1900, 2023) "relevance" 1 "T"
  | .error e => .error e

/-- First analysis of the sample paper on an empty store. -/
def c7first : DB × PaperRecord × AnalysisDoc := analyze_paper db0 paperSem1 "T1"

/-- Second analysis of the same paper (the dict the first call mutated),
on the store the first call left. -/
def c7second : DB × PaperRecord × AnalysisDoc := analyze_paper c7first.1 c7first.2.1 "T2"

/-- Findings query answered with no context on an empty transcript. -/
def c1runNoCtx : String × List ChatMsg × DB :=
  generate_response [] [] db0 "what are the findings" none "T" "innovative"

/-- Findings query answered with a one-element context (the paper alone). -/
def c1runOneCtx : String × List ChatMsg × DB :=
  generate_response [CtxEntry.paperE paperSem1] [] db0 "findings" none "T" "innovative"

/-- Record with no keys at all (key computation raises KeyError on it). -/
def recEmpty : PaperRecord := {}

/-- Shape every record carries after add_paper has mutated it: no extra keys,
a date_added stamp for the given time, and a string-serialized authors value. -/
def isMutatedShape (now : String) (p : PaperRecord) : Bool :=
  p.extra == [] && p.date_added == some now
    && (match p.authors with | some (.astr _) => true | _ => false)

/-! Helper lemmas shared by the claim theorems. -/

/-- A successful add_paper call only ever touches the papers table and its
id counter: users, associations, history and analyses are untouched. -/
theorem add_paper_preserves_other_tables (db : DB) (rec : PaperRecord) (now : String)
    (db1 : DB) (rec1 : PaperRecord) (i : Option Nat)
    (h : add_paper db rec now = .ok (db1, rec1, i)) :
    db1.users = db.users ∧ db1.user_papers = db.user_papers
      ∧ db1.paper_analysis = db.paper_analysis ∧ db1.research_history = db.research_history := by
  unfold add_paper at h
  cases hk : computeKey rec <;> rw [hk] at h
  · exact absurd h (by simp)
  case some k =>
    dsimp only at h
    cases ht : (mutateRecord rec k now).title <;>
      cases ha : (mutateRecord rec k now).authors <;> rw [ht, ha] at h
    · exact absurd h (by simp)
    · exact absurd h (by simp)
    · exact absurd h (by simp)
    case some.some t a =>
      cases hf : db.papers.find? (fun r => r.paper_id == k) <;> rw [hf] at h
      · cases a <;> simp only [Except.ok.injEq, Prod.mk.injEq] at h <;>
          obtain ⟨h1, -, -⟩ := h <;> subst h1 <;> exact ⟨rfl, rfl, rfl, rfl⟩
      · simp only [Except.ok.injEq, Prod.mk.injEq] at h
        obtain ⟨h1, -, -⟩ := h
        subst h1
        exact ⟨rfl, rfl, rfl, rfl⟩

/-- Duplicate-key case of add_paper: when a row already carries the record's
external key, the store is left alone and the stored row's id is returned. -/
theorem add_paper_dup_case (db : DB) (rec : PaperRecord) (now k : String) (r : PaperRow)
    (hk : computeKey rec = some k)
    (ht : rec.title.isSome) (ha : rec.authors.isSome)
    (hr : db.papers.find? (fun p => p.paper_id == k) = some r) :
    add_paper db rec now = .ok (db, mutateRecord rec k now, some r.id) := by
  obtain ⟨t, ht'⟩ := Option.isSome_iff_exists.mp ht
  obtain ⟨a, ha'⟩ := Option.isSome_iff_exists.mp ha
  have hmt : (mutateRecord rec k now).title = some t := ht'
  have hma : ∃ b, (mutateRecord rec k now).authors = some b := by
    show ∃ b, serializeAuthors rec.authors = some b
    rw [ha']
    cases a <;> exact ⟨_, rfl⟩
  obtain ⟨b, hb⟩ := hma
  unfold add_paper
  rw [hk]
  dsimp only
  rw [hmt, hb, hr]

/-- Fresh-key insert case of add_paper for an authors list: a new row is
appended and its generated id returned. -/
theorem add_paper_insert_case (db : DB) (rec : PaperRecord) (now k t : String) (al : List String)
    (hk : computeKey rec = some k)
    (ht : rec.title = some t)
    (ha : rec.authors = some (.alist al))
    (hf : db.papers.find? (fun p => p.paper_id == k) = none) :
    add_paper db rec now =
      .ok ({ db with
              papers := db.papers ++
                [insertedRow db (mutateRecord rec k now) k t (.astr (jsonStrList al)) now]
              next_paper_id := db.next_paper_id + 1 },
           mutateRecord rec k now, some db.next_paper_id) := by
  have hmt : (mutateRecord rec k now).title = some t := ht
  have hma : (mutateRecord rec k now).authors = some (.astr (jsonStrList al)) := by
    show serializeAuthors rec.authors = _
    rw [ha]
    rfl
  unfold add_paper
  rw [hk]
  dsimp only
  rw [hmt, hma, hf]

/-- Insert case of add_paper for a record whose authors value is already the
serialized string (the shape a previously mutated record carries). -/
theorem add_paper_insert_case_str (db : DB) (rec : PaperRecord) (now k t s : String)
    (hk : computeKey rec = some k)
    (ht : rec.title = some t)
    (ha : rec.authors = some (.astr s))
    (hf : db.papers.find? (fun p => p.paper_id == k) = none) :
    add_paper db rec now =
      .ok ({ db with
              papers := db.papers ++ [insertedRow db (mutateRecord rec k now) k t (.astr s) now]
              next_paper_id := db.next_paper_id + 1 },
           mutateRecord rec k now, some db.next_paper_id) := by
  have hmt : (mutateRecord rec k now).title = some t := ht
  have hma : (mutateRecord rec k now).authors = some (.astr s) := by
    show serializeAuthors rec.authors = _
    rw [ha]
    rfl
  unfold add_paper
  rw [hk]
  dsimp only
  rw [hmt, hma, hf]

/-- C3: the Store contract promises saveAnalysis upserts-by-paperId (at most
one analysis row per paper, re-save overwrites in place), and the code's own
IntegrityError handler is written to do exactly that — but the schema omits a
UNIQUE constraint on paper_analysis.paper_id, so the second INSERT succeeds
and a duplicate row appears: with paper row 1 stored, saving an analysis for
paper 1 twice leaves two rows for paper 1. -/
theorem save_paper_analysis_duplicates_row :
    (((save_paper_analysis (save_paper_analysis dbK 1 {} "T1").1 1 {} "T2").1.paper_analysis.filter
        (fun r => r.paper_id == 1)).length) = 2 := by
  rfl

/-- C10: when the supplied user id exists in no users row, the association
INSERT of save_paper_for_user violates the foreign key, the IntegrityError is
caught, and the call reports True while having added no association row — so
True does not imply the association exists. -/
theorem save_for_user_true_without_association (db : DB) (uid : Nat) (rec : PaperRecord)
    (now : String) (db1 : DB) (rec1 : PaperRecord) (pid : Nat)
    (hu : userExists db uid = false)
    (ha : add_paper db rec now = .ok (db1, rec1, some pid)) :
    save_paper_for_user db uid rec now = .ok (db1, rec1, true)
      ∧ db1.user_papers = db.user_papers := by
  obtain ⟨husers, hup, -, -⟩ := add_paper_preserves_other_tables db rec now db1 rec1 _ ha
  have hu1 : userExists db1 uid = false := by
    unfold userExists at hu ⊢
    rw [husers]
    exact hu
  unfold save_paper_for_user
  rw [ha]
  simp [hu1, hup]

/-- Witness for C10: saving the sample paper for the unknown user 9 on an
empty store reports True yet leaves the association table empty. -/
theorem save_for_user_true_without_association_witness :
    userExists db0 9 = false
      ∧ (∃ db1 rec1 pid, add_paper db0 paperSem1 "N" = .ok (db1, rec1, some pid)
          ∧ save_paper_for_user db0 9 paperSem1 "N" = .ok (db1, rec1, true)
          ∧ db1.user_papers = db0.user_papers) := by
  refine ⟨by decide, ?_⟩
  refine ⟨_, _, _, rfl, ?_⟩
  exact (save_for_user_true_without_association db0 9 paperSem1 "N" _ _ _ (by decide) rfl)

/-- C5: upserting a record whose external key is already stored neither adds
nor modifies any paper row and answers with the stored row's id; and for a
record without a key the key is the deterministic source-title combination. -/
theorem add_paper_first_write_wins (db : DB) (rec : PaperRecord) (now k : String) (r : PaperRow)
    (hk : computeKey rec = some k)
    (ht : rec.title.isSome) (ha : rec.authors.isSome)
    (hr : db.papers.find? (fun p => p.paper_id == k) = some r) :
    (add_paper db rec now = .ok (db, mutateRecord rec k now, some r.id))
      ∧ (∀ s t, rec.paper_id = none → rec.source = some s → rec.title = some t →
          k = s ++ "_" ++ strTake t 50) := by
  constructor
  · exact add_paper_dup_case db rec now k r hk ht ha hr
  · intro s t hpid hs ht2
    unfold computeKey at hk
    rw [hpid, hs, ht2] at hk
    simp only [Option.some.injEq] at hk
    exact hk.symm

/-- Witness for C5: re-adding a record with the stored key k leaves the
single-paper store dbK untouched and returns row id 1. -/
theorem add_paper_first_write_wins_witness :
    computeKey recK = some "k"
      ∧ dbK.papers.find? (fun p => p.paper_id == "k") = some rowK
      ∧ add_paper dbK recK "N" = .ok (dbK, mutateRecord recK "k" "N", some rowK.id) := by
  refine ⟨by decide, by decide, ?_⟩
  exact (add_paper_first_write_wins dbK recK "N" "k" rowK (by decide) (by decide) (by decide)
    (by decide)).1

/-- Branch lemma: the association INSERT of save_paper_for_user succeeds when
the user exists and the pair is not yet associated. -/
theorem save_for_user_assoc_insert (db : DB) (uid : Nat) (rec : PaperRecord) (now : String)
    (db1 : DB) (rec1 : PaperRecord) (pid : Nat)
    (ha : add_paper db rec now = .ok (db1, rec1, some pid))
    (hcond : (userExists db1 uid
      && !db1.user_papers.any (fun r => r.user_id == uid && r.paper_id == pid)) = true) :
    save_paper_for_user db uid rec now =
      .ok ({ db1 with
              user_papers := db1.user_papers ++
                [{ id := db1.next_user_paper_id, user_id := uid, paper_id := pid,
                   date_saved := now }]
              next_user_paper_id := db1.next_user_paper_id + 1 },
           rec1, true) := by
  unfold save_paper_for_user
  rw [ha]
  dsimp only
  rw [if_pos hcond]

/-- Branch lemma: the association INSERT of save_paper_for_user hits an
IntegrityError (missing user or duplicate pair), which is answered True with
the store unchanged. -/
theorem save_for_user_assoc_dup (db : DB) (uid : Nat) (rec : PaperRecord) (now : String)
    (db1 : DB) (rec1 : PaperRecord) (pid : Nat)
    (ha : add_paper db rec now = .ok (db1, rec1, some pid))
    (hcond : (userExists db1 uid
      && !db1.user_papers.any (fun r => r.user_id == uid && r.paper_id == pid)) = false) :
    save_paper_for_user db uid rec now = .ok (db1, rec1, true) := by
  unfold save_paper_for_user
  rw [ha]
  dsimp only
  rw [if_neg (by simp [hcond])]

/-- C6: saving the same paper twice for the same user (threading the record
dict through, as the caller's aliasing does) inserts the association once:
the second call also reports success and exactly one association row for the
user remains. -/
theorem save_for_user_idempotent (db : DB) (uid : Nat) (rec : PaperRecord)
    (now1 now2 k t : String) (al : List String)
    (hu : userExists db uid = true)
    (hnoassoc : db.user_papers.any (fun r => r.user_id == uid) = false)
    (hk : computeKey rec = some k)
    (ht : rec.title = some t)
    (ha : rec.authors = some (.alist al))
    (hf : db.papers.find? (fun p => p.paper_id == k) = none) :
    ∃ dbA recA dbB recB,
      save_paper_for_user db uid rec now1 = .ok (dbA, recA, true)
      ∧ save_paper_for_user dbA uid recA now2 = .ok (dbB, recB, true)
      ∧ (dbB.user_papers.filter (fun r => r.user_id == uid)).length = 1 := by
  have h1 := add_paper_insert_case db rec now1 k t al hk ht ha hf
  have hfilter0 : db.user_papers.filter (fun r => r.user_id == uid) = [] := by
    rw [List.filter_eq_nil_iff]
    intro x hx
    have := (List.any_eq_false).mp hnoassoc x hx
    simpa using this
  have hassocA : db.user_papers.any
      (fun r => r.user_id == uid && r.paper_id == db.next_paper_id) = false := by
    rw [List.any_eq_false]
    intro x hx
    have := (List.any_eq_false).mp hnoassoc x hx
    simp only [Bool.and_eq_true, not_and]
    intro hxx
    exact absurd hxx this
  have huAny : db.users.any (fun u => u.id == uid) = true := hu
  have hs1 := save_for_user_assoc_insert db uid rec now1 _ _ _ h1
    (by dsimp only [userExists]; rw [huAny, hassocA]; rfl)
  -- second call on the store and record the first call produced
  have hf2 : (db.papers ++
        [insertedRow db (mutateRecord rec k now1) k t (.astr (jsonStrList al)) now1]).find?
        (fun p => p.paper_id == k) =
      some (insertedRow db (mutateRecord rec k now1) k t (.astr (jsonStrList al)) now1) := by
    rw [List.find?_append, hf]
    simp [insertedRow]
  have h2 := add_paper_dup_case
    ({ db with
        papers := db.papers ++
          [insertedRow db (mutateRecord rec k now1) k t (.astr (jsonStrList al)) now1]
        next_paper_id := db.next_paper_id + 1
        user_papers := db.user_papers ++
          [{ id := db.next_user_paper_id, user_id := uid, paper_id := db.next_paper_id,
             date_saved := now1 }]
        next_user_paper_id := db.next_user_paper_id + 1 })
    (mutateRecord rec k now1) now2 k
    (insertedRow db (mutateRecord rec k now1) k t (.astr (jsonStrList al)) now1)
    rfl (by rw [show (mutateRecord rec k now1).title = rec.title from rfl, ht]; rfl)
    (by rw [show (mutateRecord rec k now1).authors = serializeAuthors rec.authors from rfl, ha]; rfl)
    hf2
  have hs2 := save_for_user_assoc_dup _ uid (mutateRecord rec k now1) now2 _ _ _ h2
    (by
      dsimp only [userExists]
      have hanyT : (db.user_papers ++
          [({ id := db.next_user_paper_id, user_id := uid, paper_id := db.next_paper_id,
              date_saved := now1 } : SavedRow)]).any
          (fun r => r.user_id == uid
            && r.paper_id == (insertedRow db (mutateRecord rec k now1) k t
                (.astr (jsonStrList al)) now1).id) = true := by
        rw [List.any_append]
        simp [insertedRow]
      rw [hanyT]
      simp)
  refine ⟨_, _, _, _, hs1, hs2, ?_⟩
  dsimp only
  rw [List.filter_append, hfilter0]
  simp


/-- Witness for C6: user 7 saves the sample paper twice on a store holding
only that user; both calls succeed and one association row remains. -/
theorem save_for_user_idempotent_witness :
    userExists dbU 7 = true
      ∧ (∃ dbA recA dbB recB,
          save_paper_for_user dbU 7 paperSem1 "N1" = .ok (dbA, recA, true)
          ∧ save_paper_for_user dbA 7 recA "N2" = .ok (dbB, recB, true)
          ∧ (dbB.user_papers.filter (fun r => r.user_id == 7)).length = 1) := by
  refine ⟨by decide, ?_⟩
  exact save_for_user_idempotent dbU 7 paperSem1 "N1" "N2"
    "Semantic Scholar_Attention Is All You Need" "Attention Is All You Need"
    ["Ashish Vaswani", "Noam Shazeer", "Niki Parmar"]
    (by decide) (by decide) (by decide) (by decide) (by decide) (by decide)

/-- C8: analyze_paper is total (every exception of its body is caught): when
the upsert raises, the fixed degraded document is returned; when the upsert
yields no id, the error sentinel document is returned; and when the synthesis
step raises (joining a None authors value), the degraded document is
returned — never a propagated exception. -/
theorem analyze_never_raises (db : DB) (rec : PaperRecord) (now : String) :
    ((∃ e, add_paper db rec now = .error e) →
        (analyze_paper db rec now).2.2 = degradedDoc)
    ∧ (∀ db1 rec1, add_paper db rec now = .ok (db1, rec1, none) →
        (analyze_paper db rec now).2.2 = errorSentinelDoc)
    ∧ (∀ db1 rec1 pid, add_paper db rec now = .ok (db1, rec1, some pid) →
        get_paper_analysis db1 pid = none → rec1.authors = some .anone →
        (analyze_paper db rec now).2.2 = degradedDoc) := by
  refine ⟨?_, ?_, ?_⟩
  · rintro ⟨e, he⟩
    unfold analyze_paper
    rw [he]
  · intro db1 rec1 h
    unfold analyze_paper
    rw [h]
  · intro db1 rec1 pid h hg han
    unfold analyze_paper
    rw [h]
    dsimp only
    rw [hg]
    dsimp only
    rw [han]

/-- C9: a successful add_paper call hands back the caller's record mutated in
place: the record equals the mutateRecord image of the input, so its extra
keys are gone, a date_added stamp and a serialized metadata entry are added,
and an authors list is replaced by its JSON string; consequently every record
the two-source search returns, and every record in its session cache, has the
mutated shape. -/
theorem add_paper_mutates_record (db : DB) (rec : PaperRecord) (now : String)
    (db1 : DB) (rec1 : PaperRecord) (i : Option Nat)
    (h : add_paper db rec now = .ok (db1, rec1, i)) :
    ((∃ k, computeKey rec = some k ∧ rec1 = mutateRecord rec k now)
      ∧ rec1.extra = []
      ∧ rec1.date_added = some now
      ∧ rec1.metadata = some (jsonStrDict (poppedEntries rec))
      ∧ (∀ l, rec.authors = some (.alist l) → rec1.authors = some (.astr (jsonStrList l))))
    ∧ ((fetch_research_papers session0 "ml" none (1900, 2023) "relevance" 10 "T").map
        (fun r => r.1.all (isMutatedShape "T")
          && (r.2.paper_search_cache.all (fun e => e.2.all (isMutatedShape "T"))))) = .ok true := by
  constructor
  · have hrec : ∃ k, computeKey rec = some k ∧ rec1 = mutateRecord rec k now := by
      unfold add_paper at h
      cases hk : computeKey rec <;> rw [hk] at h
      · exact absurd h (by simp)
      case some k =>
        dsimp only at h
        cases ht : (mutateRecord rec k now).title <;>
          cases ha : (mutateRecord rec k now).authors <;> rw [ht, ha] at h
        · exact absurd h (by simp)
        · exact absurd h (by simp)
        · exact absurd h (by simp)
        case some.some t a =>
          cases hf : db.papers.find? (fun r => r.paper_id == k) <;> rw [hf] at h
          · cases a <;> simp only [Except.ok.injEq, Prod.mk.injEq] at h <;>
              obtain ⟨-, h2, -⟩ := h <;> exact ⟨k, rfl, h2.symm⟩
          · simp only [Except.ok.injEq, Prod.mk.injEq] at h
            obtain ⟨-, h2, -⟩ := h
            exact ⟨k, rfl, h2.symm⟩
    obtain ⟨k, hk, hr⟩ := hrec
    subst hr
    refine ⟨⟨k, hk, rfl⟩, rfl, rfl, rfl, ?_⟩
    intro l hl
    show serializeAuthors rec.authors = _
    rw [hl]
    rfl
  · rfl

/-- Witness for C8: the three exceptional branches at concrete inputs — an
empty record (KeyError), a None-authors record on an empty store (failed
upsert) and a None-authors record colliding with stored row k (synthesis
TypeError). -/
theorem analyze_never_raises_witness :
    (add_paper db0 recEmpty "N" = .error .keyError
      ∧ (analyze_paper db0 recEmpty "N").2.2 = degradedDoc)
    ∧ (add_paper db0 recAnone "N" = .ok (db0, mutateRecord recAnone "k" "N", none)
      ∧ (analyze_paper db0 recAnone "N").2.2 = errorSentinelDoc)
    ∧ (get_paper_analysis dbK 1 = none
      ∧ (analyze_paper dbK recAnone "N").2.2 = degradedDoc) := by
  refine ⟨⟨rfl, ?_⟩, ⟨rfl, ?_⟩, rfl, ?_⟩
  · exact (analyze_never_raises db0 recEmpty "N").1 ⟨.keyError, rfl⟩
  · exact (analyze_never_raises db0 recAnone "N").2.1 db0 (mutateRecord recAnone "k" "N") rfl
  · exact (analyze_never_raises dbK recAnone "N").2.2 dbK (mutateRecord recAnone "k" "N") 1
      rfl rfl rfl

/-- Witness for C9: adding the sample paper to an empty store yields the
mutated record shape. -/
theorem add_paper_mutates_record_witness :
    ∃ db1 rec1 i, add_paper db0 paperSem1 "T" = .ok (db1, rec1, i)
      ∧ rec1.extra = [] ∧ rec1.date_added = some "T"
      ∧ rec1.metadata = some (jsonStrDict (poppedEntries paperSem1)) := by
  refine ⟨_, _, _, rfl, ?_⟩
  have h := (add_paper_mutates_record db0 paperSem1 "T" _ _ _ rfl).1
  exact ⟨h.2.1, h.2.2.1, h.2.2.2.1⟩

/-- C2 (amended): a cache-miss search returns at most maxResults records, and
a repeated call with the same (query, source, yearRange, sortBy) signature is
served verbatim from the session cache with the session unchanged (so no
source is re-queried) — but what it returns is the full merged, sorted list
the miss cached, which is not truncated to maxResults. -/
theorem fetch_cache_semantics (st : Session) (q : String)
    (source : Option String) (yr : Int × Int) (sb : String) (mr : Nat) (now : String) :
    (∀ cached, st.paper_search_cache.lookup (searchKey q source yr sb) = some cached →
        fetch_research_papers st q source yr sb mr now = .ok (cached, st))
    ∧ (st.paper_search_cache.lookup (searchKey q source yr sb) = none →
        ∀ res st1, fetch_research_papers st q source yr sb mr now = .ok (res, st1) →
          res.length ≤ mr
          ∧ ∃ cached, st1.paper_search_cache.lookup (searchKey q source yr sb) = some cached
              ∧ fetch_research_papers st1 q source yr sb mr now = .ok (cached, st1)) := by
  constructor
  · intro cached hc
    unfold fetch_research_papers
    dsimp only
    rw [hc]
  · intro hnone res st1 hfetch
    unfold fetch_research_papers at hfetch
    dsimp only at hfetch
    rw [hnone] at hfetch
    cases haa : addAll st.db (mergedSamples (sourcesToQuery source)) now <;> rw [haa] at hfetch
    · exact absurd hfetch (by simp)
    case ok v =>
      obtain ⟨db1, stored⟩ := v
      dsimp only at hfetch
      simp only [Except.ok.injEq, Prod.mk.injEq] at hfetch
      obtain ⟨hres, hst1⟩ := hfetch
      subst hst1
      constructor
      · rw [← hres]
        simp
      · refine ⟨applySort sb stored, ?_, ?_⟩
        · dsimp only
          rw [List.lookup_append, hnone]
          simp
        · unfold fetch_research_papers
          dsimp only
          rw [List.lookup_append, hnone]
          simp

/-- Counterexample to C2 as stated: searching ml over all sources with
maxResults one returns one record on the first call but six on the repeated
identical call, because the cache stores the untruncated merged list and a
hit returns it verbatim. -/
theorem fetch_repeat_not_truncated :
    (c2first.map (fun r => r.1.length) = .ok 1)
    ∧ (c2second.map (fun r => r.1.length) = .ok 6) := ⟨rfl, rfl⟩

/-- Witness for the amended C2 on the concrete two-source scenario. -/
theorem fetch_cache_semantics_witness :
    session0.paper_search_cache.lookup (searchKey "ml" none (1900, 2023) "relevance") = none
    ∧ (∃ res st1,
        fetch_research_papers session0 "ml" none (1900, 2023) "relevance" 1 "T" = .ok (res, st1)
        ∧ res.length ≤ 1
        ∧ ∃ cached,
            st1.paper_search_cache.lookup (searchKey "ml" none (1900, 2023) "relevance") = some cached
            ∧ fetch_research_papers st1 "ml" none (1900, 2023) "relevance" 1 "T" = .ok (cached, st1)) := by
  refine ⟨rfl, ?_⟩
  refine ⟨_, _, rfl, ?_⟩
  exact (fetch_cache_semantics session0 "ml" none (1900, 2023) "relevance" 1 "T").2 rfl _ _ rfl

/-- C7 (amended): for a fresh paper the second analyze call returns exactly
the stored analysis as getAnalysis fetches it, with no re-synthesis (the
store is unchanged by the second call); the four content fields (summary,
key findings, methodology, implications) agree with the first call's
document, but the fetched document additionally carries the row's id,
paper_id and date_analyzed keys, so the two documents are not byte-identical. -/
theorem analyze_second_call_returns_stored (db : DB) (rec : PaperRecord)
    (now1 now2 k t : String) (al : List String)
    (hk : computeKey rec = some k)
    (ht : rec.title = some t)
    (ha : rec.authors = some (.alist al))
    (hf : db.papers.find? (fun p => p.paper_id == k) = none)
    (hna : db.paper_analysis.find? (fun r => r.paper_id == db.next_paper_id) = none) :
    ∃ db2 rec1 doc1 rec2 doc2,
      analyze_paper db rec now1 = (db2, rec1, doc1)
      ∧ analyze_paper db2 rec1 now2 = (db2, rec2, doc2)
      ∧ get_paper_analysis db2 db.next_paper_id = some doc2
      ∧ doc2.summary = doc1.summary
      ∧ doc2.key_findings = doc1.key_findings
      ∧ doc2.methodology = doc1.methodology
      ∧ doc2.implications = doc1.implications := by
  have h1 := add_paper_insert_case db rec now1 k t al hk ht ha hf
  have ha2 : (mutateRecord rec k now1).authors = some (.astr (jsonStrList al)) := by
    show serializeAuthors rec.authors = _
    rw [ha]
    rfl
  -- first analyze call: no stored analysis yet, so synthesis and save run
  have hga1 : get_paper_analysis
      ({ db with
          papers := db.papers ++
            [insertedRow db (mutateRecord rec k now1) k t (.astr (jsonStrList al)) now1]
          next_paper_id := db.next_paper_id + 1 })
      db.next_paper_id = none := by
    unfold get_paper_analysis
    dsimp only
    rw [hna]
    rfl
  have hanyP : (db.papers ++
      [insertedRow db (mutateRecord rec k now1) k t (.astr (jsonStrList al)) now1]).any
      (fun r => r.id == db.next_paper_id) = true := by
    rw [List.any_append]
    simp [insertedRow]
  have hsave : save_paper_analysis
      ({ db with
          papers := db.papers ++
            [insertedRow db (mutateRecord rec k now1) k t (.astr (jsonStrList al)) now1]
          next_paper_id := db.next_paper_id + 1 })
      db.next_paper_id (synthDoc (mutateRecord rec k now1)) now1 =
      ({ db with
          papers := db.papers ++
            [insertedRow db (mutateRecord rec k now1) k t (.astr (jsonStrList al)) now1]
          next_paper_id := db.next_paper_id + 1
          paper_analysis := db.paper_analysis ++
            [analysisRowOf
              ({ db with
                  papers := db.papers ++
                    [insertedRow db (mutateRecord rec k now1) k t (.astr (jsonStrList al)) now1]
                  next_paper_id := db.next_paper_id + 1 })
              db.next_paper_id (synthDoc (mutateRecord rec k now1)) now1]
          next_analysis_id := db.next_analysis_id + 1 }, true) := by
    unfold save_paper_analysis
    dsimp only
    rw [hanyP]
    rfl
  have hcall1 : analyze_paper db rec now1 =
      ({ db with
          papers := db.papers ++
            [insertedRow db (mutateRecord rec k now1) k t (.astr (jsonStrList al)) now1]
          next_paper_id := db.next_paper_id + 1
          paper_analysis := db.paper_analysis ++
            [analysisRowOf
              ({ db with
                  papers := db.papers ++
                    [insertedRow db (mutateRecord rec k now1) k t (.astr (jsonStrList al)) now1]
                  next_paper_id := db.next_paper_id + 1 })
              db.next_paper_id (synthDoc (mutateRecord rec k now1)) now1]
          next_analysis_id := db.next_analysis_id + 1 },
        mutateRecord rec k now1, synthDoc (mutateRecord rec k now1)) := by
    unfold analyze_paper
    rw [h1]
    dsimp only
    rw [hga1]
    dsimp only
    rw [ha2]
    dsimp only
    rw [hsave]
  -- second analyze call: duplicate upsert, stored analysis found and returned
  have hf2 : (db.papers ++
      [insertedRow db (mutateRecord rec k now1) k t (.astr (jsonStrList al)) now1]).find?
      (fun p => p.paper_id == k) =
      some (insertedRow db (mutateRecord rec k now1) k t (.astr (jsonStrList al)) now1) := by
    rw [List.find?_append, hf]
    simp [insertedRow]
  have h2 := add_paper_dup_case
    ({ db with
        papers := db.papers ++
          [insertedRow db (mutateRecord rec k now1) k t (.astr (jsonStrList al)) now1]
        next_paper_id := db.next_paper_id + 1
        paper_analysis := db.paper_analysis ++
          [analysisRowOf
            ({ db with
                papers := db.papers ++
                  [insertedRow db (mutateRecord rec k now1) k t (.astr (jsonStrList al)) now1]
                next_paper_id := db.next_paper_id + 1 })
            db.next_paper_id (synthDoc (mutateRecord rec k now1)) now1]
        next_analysis_id := db.next_analysis_id + 1 })
    (mutateRecord rec k now1) now2 k
    (insertedRow db (mutateRecord rec k now1) k t (.astr (jsonStrList al)) now1)
    rfl (by rw [show (mutateRecord rec k now1).title = rec.title from rfl, ht]; rfl)
    (by rw [ha2]; rfl) hf2
  have hga2 : ∀ pid2, pid2 = db.next_paper_id → get_paper_analysis
      ({ db with
          papers := db.papers ++
            [insertedRow db (mutateRecord rec k now1) k t (.astr (jsonStrList al)) now1]
          next_paper_id := db.next_paper_id + 1
          paper_analysis := db.paper_analysis ++
            [analysisRowOf
              ({ db with
                  papers := db.papers ++
                    [insertedRow db (mutateRecord rec k now1) k t (.astr (jsonStrList al)) now1]
                  next_paper_id := db.next_paper_id + 1 })
              db.next_paper_id (synthDoc (mutateRecord rec k now1)) now1]
          next_analysis_id := db.next_analysis_id + 1 })
      pid2 =
      some (rowToDoc (analysisRowOf
        ({ db with
            papers := db.papers ++
              [insertedRow db (mutateRecord rec k now1) k t (.astr (jsonStrList al)) now1]
            next_paper_id := db.next_paper_id + 1 })
        db.next_paper_id (synthDoc (mutateRecord rec k now1)) now1)) := by
    intro pid2 hpid2
    subst hpid2
    unfold get_paper_analysis
    dsimp only
    rw [List.find?_append, hna]
    simp [analysisRowOf]
  have hcall2 : analyze_paper
      ({ db with
          papers := db.papers ++
            [insertedRow db (mutateRecord rec k now1) k t (.astr (jsonStrList al)) now1]
          next_paper_id := db.next_paper_id + 1
          paper_analysis := db.paper_analysis ++
            [analysisRowOf
              ({ db with
                  papers := db.papers ++
                    [insertedRow db (mutateRecord rec k now1) k t (.astr (jsonStrList al)) now1]
                  next_paper_id := db.next_paper_id + 1 })
              db.next_paper_id (synthDoc (mutateRecord rec k now1)) now1]
          next_analysis_id := db.next_analysis_id + 1 })
      (mutateRecord rec k now1) now2 =
      ({ db with
          papers := db.papers ++
            [insertedRow db (mutateRecord rec k now1) k t (.astr (jsonStrList al)) now1]
          next_paper_id := db.next_paper_id + 1
          paper_analysis := db.paper_analysis ++
            [analysisRowOf
              ({ db with
                  papers := db.papers ++
                    [insertedRow db (mutateRecord rec k now1) k t (.astr (jsonStrList al)) now1]
                  next_paper_id := db.next_paper_id + 1 })
              db.next_paper_id (synthDoc (mutateRecord rec k now1)) now1]
          next_analysis_id := db.next_analysis_id + 1 },
        mutateRecord (mutateRecord rec k now1) k now2,
        rowToDoc (analysisRowOf
          ({ db with
              papers := db.papers ++
                [insertedRow db (mutateRecord rec k now1) k t (.astr (jsonStrList al)) now1]
              next_paper_id := db.next_paper_id + 1 })
          db.next_paper_id (synthDoc (mutateRecord rec k now1)) now1)) := by
    unfold analyze_paper
    rw [h2]
    dsimp only
    rw [hga2 (insertedRow db (mutateRecord rec k now1) k t (.astr (jsonStrList al)) now1).id rfl]
  exact ⟨_, _, _, _, _, hcall1, hcall2, hga2 _ rfl, rfl, rfl, rfl, rfl⟩

/-- Counterexample to C7 as stated: analyzing the sample paper twice gives a
second document that differs from the first (it carries the stored row's
paper_id key, which the first lacks) — the calls are not byte-identical. -/
theorem analyze_twice_not_byte_identical :
    c7first.2.2.paper_id = none
    ∧ c7second.2.2.paper_id = some 1
    ∧ c7second.2.2 ≠ c7first.2.2 := by
  refine ⟨rfl, rfl, ?_⟩
  intro h
  have h2 := congrArg AnalysisDoc.paper_id h
  rw [show c7second.2.2.paper_id = some 1 from rfl,
      show c7first.2.2.paper_id = none from rfl] at h2
  exact Option.noConfusion h2

/-- Witness for the amended C7 at the sample paper on an empty store. -/
theorem analyze_second_call_returns_stored_witness :
    ∃ db2 rec1 doc1 rec2 doc2,
      analyze_paper db0 paperSem1 "T1" = (db2, rec1, doc1)
      ∧ analyze_paper db2 rec1 "T2" = (db2, rec2, doc2)
      ∧ get_paper_analysis db2 db0.next_paper_id = some doc2
      ∧ doc2.summary = doc1.summary := by
  obtain ⟨db2, rec1, doc1, rec2, doc2, h1, h2, h3, h4, -, -, -⟩ :=
    analyze_second_call_returns_stored db0 paperSem1 "T1" "T2"
      "Semantic Scholar_Attention Is All You Need" "Attention Is All You Need"
      ["Ashish Vaswani", "Noam Shazeer", "Niki Parmar"]
      (by decide) (by decide) (by decide) (by decide) (by decide)
  exact ⟨db2, rec1, doc1, rec2, doc2, h1, h2, h3, h4⟩

/-- Helper: taking one element past a list's length off an appended singleton
gives the appended list back. -/
theorem take_append_singleton (l : List ChatMsg) (x : ChatMsg) :
    (l ++ [x]).take (l.length + 1) = l ++ [x] := by
  have h : (l ++ [x]).length = l.length + 1 := by simp
  rw [← h, List.take_length]

/-- Helper: taking one element past a list's length off two appended
singletons gives the first append back. -/
theorem take_append_pair (l : List ChatMsg) (x y : ChatMsg) :
    ((l ++ [x]) ++ [y]).take (l.length + 1) = l ++ [x] := by
  have h : (l ++ [x]).length = l.length + 1 := by simp
  rw [← h, List.take_left]

/-- C1 (amended): every generate_response invocation appends exactly one
user-turn record (role, content, timestamp) to the transcript; an
assistant-turn record is appended only by the summary branch (shown here for
the successful no-context summary), and every non-summary query — all other
branches and the inlined exception paths, whose apology is returned, not
appended — leaves the transcript with the user turn alone. -/
theorem chat_transcript_user_only_outside_summary (ctx : List CtxEntry) (hist : List ChatMsg)
    (db : DB) (q : String) (uid : Option Nat) (now randWord : String) :
    ((generate_response ctx hist db q uid now randWord).2.1.take (hist.length + 1)
        = hist ++ [⟨"user", q, now⟩])
    ∧ (isSummaryQ (strLower q) = false →
        (generate_response ctx hist db q uid now randWord).2.1 = hist ++ [⟨"user", q, now⟩])
    ∧ (isSummaryQ (strLower q) = true → uid = none → ctx = [] →
        (generate_response ctx hist db q uid now randWord).2.1
          = (hist ++ [⟨"user", q, now⟩]) ++ [⟨"assistant", noPaperSummaryResp, now⟩]) := by
  refine ⟨?_, ?_, ?_⟩
  · unfold generate_response
    cases hh : chatHistoryStep db ctx q uid now <;> dsimp only
    · exact take_append_singleton hist _
    · repeat' split
      all_goals first
        | exact take_append_singleton hist _
        | exact take_append_pair hist _ _
  · intro hS
    unfold generate_response
    cases hh : chatHistoryStep db ctx q uid now <;> dsimp only
    rw [if_neg (by rw [hS]; exact Bool.false_ne_true)]
    repeat' split
    all_goals rfl
  · intro hS huid hctx
    subst huid
    subst hctx
    unfold generate_response
    dsimp only [chatHistoryStep]
    rw [if_pos hS]

/-- Counterexample to C1 as stated: a findings query with no context returns
its response with only the user turn on the transcript (no assistant turn),
and a findings query with a one-element context returns the apology, which is
also not appended to the transcript. -/
theorem chat_transcript_counterexample :
    c1runNoCtx.1 = noPaperFindingsResp
    ∧ c1runNoCtx.2.1 = [⟨"user", "what are the findings", "T"⟩]
    ∧ c1runOneCtx.1 = apologyResp
    ∧ c1runOneCtx.2.1 = [⟨"user", "findings", "T"⟩] := ⟨rfl, rfl, rfl, rfl⟩

/-- Witness for the amended C1: a non-summary query leaves only the user
turn; a summary query appends both turns. -/
theorem chat_transcript_witness :
    isSummaryQ (strLower "tell me the results") = false
    ∧ (generate_response [] [] db0 "tell me the results" none "T" "w").2.1
        = [⟨"user", "tell me the results", "T"⟩]
    ∧ isSummaryQ (strLower "summary please") = true
    ∧ (generate_response [] [] db0 "summary please" none "T" "w").2.1
        = [⟨"user", "summary please", "T"⟩, ⟨"assistant", noPaperSummaryResp, "T"⟩] := by
  refine ⟨by decide, ?_, by decide, ?_⟩
  · have h := (chat_transcript_user_only_outside_summary [] [] db0 "tell me the results"
      none "T" "w").2.1 (by decide)
    simpa using h
  · have h := (chat_transcript_user_only_outside_summary [] [] db0 "summary please"
      none "T" "w").2.2 (by decide) rfl rfl
    simpa using h

/-- C4: a findings/results/discover query (that is not a summary query), with
a paper-and-analysis context whose analysis has no structured key_findings,
returns the generic findings statement naming the contextual paper; that
statement is never the apology string (and the call raises nothing — the
model is total). -/
theorem findings_generic_without_structured (p : PaperRecord) (a : AnalysisDoc)
    (hist : List ChatMsg) (db : DB) (q : String) (uid : Option Nat) (now randWord : String)
    (hfind : isFindingsQ (strLower q) = true)
    (hsumm : isSummaryQ (strLower q) = false)
    (hkf : a.key_findings = none)
    (huid : uid = none ∨ ∃ u, uid = some u ∧ userExists db u = true) :
    (generate_response [.paperE p, .analysisE a] hist db q uid now randWord).1
        = genericFindingsResp (p.title.getD "selected")
    ∧ genericFindingsResp (p.title.getD "selected") ≠ apologyResp := by
  constructor
  · have hstep : ∃ db1,
        chatHistoryStep db [.paperE p, .analysisE a] q uid now = .ok db1 := by
      rcases huid with h | ⟨u, hu, hex⟩
      · subst h
        exact ⟨db, rfl⟩
      · subst hu
        unfold chatHistoryStep
        dsimp only
        by_cases h0 : (u == 0) = true
        · rw [if_pos h0]
          exact ⟨db, rfl⟩
        · rw [if_neg h0]
          unfold add_history_item
          rw [if_pos hex]
          exact ⟨_, rfl⟩
    obtain ⟨db1, hstep⟩ := hstep
    unfold generate_response
    rw [hstep]
    dsimp only
    rw [if_neg (by rw [hsumm]; exact Bool.false_ne_true), if_pos hfind]
    dsimp only [entryKeyFindings]
    rw [hkf]
    rfl
  · intro h
    have h2 := congrArg (fun s => s.data.head?) h
    have hL : (genericFindingsResp (p.title.getD "selected")).data.head? = some 'T' := rfl
    have hR : apologyResp.data.head? = some 'I' := rfl
    simp only at h2
    rw [hL, hR] at h2
    exact absurd h2 (by decide)

/-- Witness for C4 at the query findings with the sample paper and the
sentinel analysis document (which has no key_findings) in context. -/
theorem findings_generic_without_structured_witness :
    isFindingsQ (strLower "findings") = true
    ∧ isSummaryQ (strLower "findings") = false
    ∧ errorSentinelDoc.key_findings = none
    ∧ (generate_response [.paperE paperSem1, .analysisE errorSentinelDoc] [] db0
        "findings" none "T" "w").1 = genericFindingsResp (paperSem1.title.getD "selected") := by
  refine ⟨by decide, by decide, rfl, ?_⟩
  exact (findings_generic_without_structured paperSem1 errorSentinelDoc [] db0 "findings"
    none "T" "w" (by decide) (by decide) rfl (Or.inl rfl)).1
